import Mathlib

/-!
Verification of the ticket-bari-server booking lifecycle.

Shallow embedding of the booking controllers, the payment controllers and
the mongoose schemas of the repository.  Ids (users, tickets, bookings,
charge intents) are modelled as natural numbers; instants are natural
numbers of milliseconds; money and quantities are integers (the schemas
only constrain them by min-validators, which are modelled where they are
enforced on save).  The database is an explicit record of association
lists, and every controller is a pure function from a request and a
database to the new database and an HTTP-shaped result, one result
constructor per return site of the source.
-/

namespace TicketBari

/-- Booking lifecycle status, from the bookingSchema enum. -/
inductive BookingStatus
  | pending
  | accepted
  | rejected
  | paid
deriving DecidableEq

/-- Payment status of a booking, from the bookingSchema enum. -/
inductive PaymentStatus
  | unpaid
  | paid
  | refunded
deriving DecidableEq

/-- Ticket approval state, from the ticketSchema enum. -/
inductive VerificationStatus
  | pending
  | approved
  | rejected
deriving DecidableEq

/-- Departure time of day: the HH:MM string of the schemas, parsed. -/
structure TimeOfDay where
  hours : Nat
  minutes : Nat
deriving DecidableEq

/-- A ticket record (ticketSchema).  departureDate is the instant of
midnight of the departure day in milliseconds; setHours overwrites the
time of day, so the departure instant is the sum of the two parts. -/
structure Ticket where
  title : String
  fromLocation : String
  toLocation : String
  transportType : String
  price : Int
  quantity : Int
  departureDate : Nat
  departureTime : TimeOfDay
  verificationStatus : VerificationStatus
  vendor : Nat
deriving DecidableEq

/-- The frozen copy of ticket terms stored inside a booking. -/
structure TicketSnapshot where
  title : String
  fromLocation : String
  toLocation : String
  departureDate : Nat
  departureTime : TimeOfDay
  transportType : String
  unitPrice : Int
deriving DecidableEq

/-- A booking record (bookingSchema). -/
structure Booking where
  ticket : Nat
  user : Nat
  bookingQuantity : Int
  totalPrice : Int
  status : BookingStatus
  ticketSnapshot : TicketSnapshot
  paymentIntentId : Option Nat
  paymentStatus : PaymentStatus
  paidAt : Option Nat
deriving DecidableEq

/-- A transaction record (transactionSchema); constant fields (currency,
paymentMethod, paymentStatus) are omitted. -/
structure Transaction where
  user : Nat
  booking : Nat
  ticket : Nat
  transactionId : Nat
  amount : Int
  stripePaymentIntentId : Nat
  ticketTitle : String
deriving DecidableEq

/-- Status of an external charge intent as reported by the payment
provider. -/
inductive IntentStatus
  | pending
  | succeeded
  | failed
deriving DecidableEq

/-- An external charge intent as retrieved from the payment provider. -/
structure StripeIntent where
  status : IntentStatus
  amount : Int
deriving DecidableEq

/-- The persistent store: collections keyed by id, plus the id the next
created booking receives. -/
structure DB where
  tickets : List (Nat × Ticket)
  bookings : List (Nat × Booking)
  transactions : List Transaction
  nextBookingId : Nat
deriving DecidableEq

/-- Model.findById: first record with the given id, if any. -/
def findById {α : Type} (l : List (Nat × α)) (id : Nat) : Option α :=
  match l with
  | [] => none
  | (k, v) :: rest => if k = id then some v else findById rest id

/-- document.save on an existing record: replace the record with the
given id. -/
def updateById {α : Type} (l : List (Nat × α)) (id : Nat) (v : α) : List (Nat × α) :=
  match l with
  | [] => []
  | (k, w) :: rest => if k = id then (k, v) :: rest else (k, w) :: updateById rest id v

/-- document.deleteOne: remove the record with the given id. -/
def removeById {α : Type} (l : List (Nat × α)) (id : Nat) : List (Nat × α) :=
  match l with
  | [] => []
  | (k, w) :: rest => if k = id then rest else (k, w) :: removeById rest id

/-- The departure instant: the departure date with the hours and minutes
of the departure time set on it (setHours with seconds and ms zeroed). -/
def departureInstant (d : Nat) (t : TimeOfDay) : Nat :=
  d + (t.hours * 60 + t.minutes) * 60000

/-- The expiry test of the controllers: departureDateTime < new Date(). -/
def isExpiredAt (now : Nat) (d : Nat) (t : TimeOfDay) : Bool :=
  departureInstant d t < now

/-- Whether a transaction with the given external charge id already
exists (the unique index on transactionId). -/
def hasTransactionId (l : List Transaction) (id : Nat) : Bool :=
  l.any (fun t => t.transactionId == id)

/-- Number of transaction records referencing a given booking. -/
def countTxnsFor (l : List Transaction) (bookingId : Nat) : Nat :=
  (l.filter (fun t => t.booking == bookingId)).length

/-- Sum of the quantities of the bookings with status paid that reference
a given ticket. -/
def paidQuantitySum (l : List (Nat × Booking)) (ticketId : Nat) : Int :=
  (l.filter (fun p => p.2.ticket == ticketId && p.2.status == BookingStatus.paid)).foldr
    (fun p s => p.2.bookingQuantity + s) 0

/-! ## createBooking (bookingController.createBooking) -/

/-- One constructor per return site of createBooking. -/
inductive CreateBookingResult
  | created (id : Nat) (b : Booking)
  | missingFields
  | invalidQuantity
  | ticketNotFound
  | notApproved
  | expired
  | insufficientQuantity
deriving DecidableEq

/-- The booking document createBooking inserts, snapshot included. -/
def newBookingOf (userId ticketId : Nat) (bookingQuantity : Int) (t : Ticket) : Booking :=
  { ticket := ticketId
    user := userId
    bookingQuantity := bookingQuantity
    totalPrice := t.price * bookingQuantity
    status := BookingStatus.pending
    ticketSnapshot :=
      { title := t.title
        fromLocation := t.fromLocation
        toLocation := t.toLocation
        departureDate := t.departureDate
        departureTime := t.departureTime
        transportType := t.transportType
        unitPrice := t.price }
    paymentIntentId := none
    paymentStatus := PaymentStatus.unpaid
    paidAt := none }

/-- createBooking.  The required-field test uses javascript falsiness, so
a quantity of zero is reported as a missing field; ids are object id
strings in the source, never falsy, and are modelled as always present. -/
def createBooking (now : Nat) (userId ticketId : Nat) (bookingQuantity : Int)
    (db : DB) : DB × CreateBookingResult :=
  if bookingQuantity = 0 then (db, CreateBookingResult.missingFields)
  else if bookingQuantity ≤ 0 then (db, CreateBookingResult.invalidQuantity)
  else
    match findById db.tickets ticketId with
    | none => (db, CreateBookingResult.ticketNotFound)
    | some t =>
      if t.verificationStatus ≠ VerificationStatus.approved then
        (db, CreateBookingResult.notApproved)
      else if isExpiredAt now t.departureDate t.departureTime then
        (db, CreateBookingResult.expired)
      else if t.quantity < bookingQuantity then
        (db, CreateBookingResult.insufficientQuantity)
      else
        let b := newBookingOf userId ticketId bookingQuantity t
        ({ db with
            bookings := db.bookings ++ [(db.nextBookingId, b)]
            nextBookingId := db.nextBookingId + 1 },
         CreateBookingResult.created db.nextBookingId b)

/-! ## acceptBooking / rejectBooking / cancelBooking -/

/-- One constructor per return site of acceptBooking; serverError is the
catch branch, reached when populate left the ticket null and the vendor
field is dereferenced on it. -/
inductive AcceptResult
  | accepted (b : Booking)
  | bookingNotFound
  | notAuthorized
  | invalidStatus (s : BookingStatus)
  | expired
  | serverError
deriving DecidableEq

/-- acceptBooking: vendor ownership, pending status, snapshot expiry. -/
def acceptBooking (now : Nat) (vendorId bookingId : Nat) (db : DB) : DB × AcceptResult :=
  match findById db.bookings bookingId with
  | none => (db, AcceptResult.bookingNotFound)
  | some b =>
    match findById db.tickets b.ticket with
    | none => (db, AcceptResult.serverError)
    | some t =>
      if t.vendor ≠ vendorId then (db, AcceptResult.notAuthorized)
      else if b.status ≠ BookingStatus.pending then (db, AcceptResult.invalidStatus b.status)
      else if isExpiredAt now b.ticketSnapshot.departureDate b.ticketSnapshot.departureTime then
        (db, AcceptResult.expired)
      else
        let b2 := { b with status := BookingStatus.accepted }
        ({ db with bookings := updateById db.bookings bookingId b2 }, AcceptResult.accepted b2)

/-- One constructor per return site of rejectBooking. -/
inductive RejectResult
  | rejected (b : Booking)
  | bookingNotFound
  | notAuthorized
  | invalidStatus (s : BookingStatus)
  | serverError
deriving DecidableEq

/-- rejectBooking: same ownership and status checks as accept, no expiry
check in the source. -/
def rejectBooking (vendorId bookingId : Nat) (db : DB) : DB × RejectResult :=
  match findById db.bookings bookingId with
  | none => (db, RejectResult.bookingNotFound)
  | some b =>
    match findById db.tickets b.ticket with
    | none => (db, RejectResult.serverError)
    | some t =>
      if t.vendor ≠ vendorId then (db, RejectResult.notAuthorized)
      else if b.status ≠ BookingStatus.pending then (db, RejectResult.invalidStatus b.status)
      else
        let b2 := { b with status := BookingStatus.rejected }
        ({ db with bookings := updateById db.bookings bookingId b2 }, RejectResult.rejected b2)

/-- One constructor per return site of cancelBooking. -/
inductive CancelResult
  | cancelled
  | bookingNotFound
  | notAuthorized
  | invalidStatus
deriving DecidableEq

/-- cancelBooking: buyer ownership, pending status, then deleteOne. -/
def cancelBooking (userId bookingId : Nat) (db : DB) : DB × CancelResult :=
  match findById db.bookings bookingId with
  | none => (db, CancelResult.bookingNotFound)
  | some b =>
    if b.user ≠ userId then (db, CancelResult.notAuthorized)
    else if b.status ≠ BookingStatus.pending then (db, CancelResult.invalidStatus)
    else ({ db with bookings := removeById db.bookings bookingId }, CancelResult.cancelled)

/-! ## createPaymentIntent (paymentController.createPaymentIntent) -/

/-- One constructor per return site of createPaymentIntent; unavailable
is the shared branch for a deleted ticket and for insufficient remaining
quantity. -/
inductive IntentResult
  | ok (intentId : Nat) (amount : Int)
  | bookingNotFound
  | notAuthorized
  | invalidStatus (s : BookingStatus)
  | alreadyPaid
  | expired
  | unavailable
deriving DecidableEq

/-- createPaymentIntent.  newIntentId is the id the external provider
returns for the freshly created charge intent. -/
def createPaymentIntent (now : Nat) (userId bookingId newIntentId : Nat)
    (db : DB) : DB × IntentResult :=
  match findById db.bookings bookingId with
  | none => (db, IntentResult.bookingNotFound)
  | some b =>
    if b.user ≠ userId then (db, IntentResult.notAuthorized)
    else if b.status ≠ BookingStatus.accepted then (db, IntentResult.invalidStatus b.status)
    else if b.paymentStatus = PaymentStatus.paid then (db, IntentResult.alreadyPaid)
    else if isExpiredAt now b.ticketSnapshot.departureDate b.ticketSnapshot.departureTime then
      (db, IntentResult.expired)
    else
      match findById db.tickets b.ticket with
      | none => (db, IntentResult.unavailable)
      | some t =>
        if t.quantity < b.bookingQuantity then (db, IntentResult.unavailable)
        else
          let b2 := { b with paymentIntentId := some newIntentId }
          ({ db with bookings := updateById db.bookings bookingId b2 },
           IntentResult.ok newIntentId b.totalPrice)

/-! ## confirmPayment (paymentController.confirmPayment) -/

/-- One constructor per return site of confirmPayment.  serverError is
the catch branch: an unknown intent id at retrieve, a null populated
ticket dereferenced for the inventory update, the min-zero validator of
the ticket schema rejecting a negative quantity on save, or the unique
index on transactionId rejecting a duplicate insert. -/
inductive ConfirmResult
  | ok (b : Booking) (t : Transaction)
  | bookingNotFound
  | notAuthorized
  | paymentNotCompleted
  | alreadyPaid
  | serverError
deriving DecidableEq

/-- The booking document after the capture writes of confirmPayment. -/
def capturedBooking (now : Nat) (b : Booking) : Booking :=
  { b with
    status := BookingStatus.paid
    paymentStatus := PaymentStatus.paid
    paidAt := some now }

/-- The transaction document confirmPayment inserts; its transactionId
and stripePaymentIntentId are the intent id supplied in the request. -/
def confirmTxn (userId bookingId intentRef : Nat) (b : Booking) : Transaction :=
  { user := userId
    booking := bookingId
    ticket := b.ticket
    transactionId := intentRef
    amount := b.totalPrice
    stripePaymentIntentId := intentRef
    ticketTitle := b.ticketSnapshot.title }

/-- confirmPayment.  stripeIntents models paymentIntents.retrieve; the
booking save happens before the ticket and transaction writes, and each
later failure leaves the earlier writes in place (the source has no
transactional boundary).  In this sequential model the refetch of the
ticket before the decrement returns the same record populate saw. -/
def confirmPayment (now : Nat) (userId bookingId intentRef : Nat)
    (stripeIntents : Nat → Option StripeIntent) (db : DB) : DB × ConfirmResult :=
  match findById db.bookings bookingId with
  | none => (db, ConfirmResult.bookingNotFound)
  | some b =>
    if b.user ≠ userId then (db, ConfirmResult.notAuthorized)
    else
      match stripeIntents intentRef with
      | none => (db, ConfirmResult.serverError)
      | some intent =>
        if intent.status ≠ IntentStatus.succeeded then (db, ConfirmResult.paymentNotCompleted)
        else if b.paymentStatus = PaymentStatus.paid then (db, ConfirmResult.alreadyPaid)
        else
          let b2 := capturedBooking now b
          let db1 := { db with bookings := updateById db.bookings bookingId b2 }
          match findById db.tickets b.ticket with
          | none =>
            -- populate left booking.ticket null; reading its id for the
            -- refetch throws after the booking was already saved as paid
            (db1, ConfirmResult.serverError)
          | some t =>
            let newQty := t.quantity - b.bookingQuantity
            if newQty < 0 then
              -- the min-zero validator of ticketSchema.quantity rejects
              -- the save; the booking stays saved as paid
              (db1, ConfirmResult.serverError)
            else
              let db2 := { db1 with tickets := updateById db1.tickets b.ticket { t with quantity := newQty } }
              if hasTransactionId db2.transactions intentRef then
                (db2, ConfirmResult.serverError)
              else
                ({ db2 with transactions := db2.transactions ++ [confirmTxn userId bookingId intentRef b] },
                 ConfirmResult.ok b2 (confirmTxn userId bookingId intentRef b))

/-! ## Concrete example states -/

/-- Departure time of day used by the example ticket. -/
def exTime : TimeOfDay := { hours := 10, minutes := 30 }

/-- An approved ticket with three seats left, departing in the future
relative to instant zero. -/
def exTicket : Ticket :=
  { title := "T", fromLocation := "A", toLocation := "B", transportType := "Bus"
    price := 100, quantity := 3, departureDate := 86400000, departureTime := exTime
    verificationStatus := VerificationStatus.approved, vendor := 7 }

/-- The example ticket with only one seat left. -/
def exTicketLow : Ticket := { exTicket with quantity := 1 }

/-- The example ticket still awaiting admin approval. -/
def exTicketUnapproved : Ticket := { exTicket with verificationStatus := VerificationStatus.pending }

/-- The snapshot createBooking freezes from the example ticket. -/
def exSnap : TicketSnapshot :=
  { title := "T", fromLocation := "A", toLocation := "B"
    departureDate := 86400000, departureTime := exTime
    transportType := "Bus", unitPrice := 100 }

/-- Buyer 1 holds an accepted, unpaid booking for two seats; intent 9 was
stored on it by createPaymentIntent. -/
def exBookingA : Booking :=
  { ticket := 1, user := 1, bookingQuantity := 2, totalPrice := 200
    status := BookingStatus.accepted, ticketSnapshot := exSnap
    paymentIntentId := some 9, paymentStatus := PaymentStatus.unpaid, paidAt := none }

/-- Buyer 2 holds a second accepted, unpaid booking for two seats, with
intent 8 stored on it. -/
def exBookingB : Booking := { exBookingA with user := 2, paymentIntentId := some 8 }

/-- The booking of buyer 1 after the vendor rejected it. -/
def exBookingRej : Booking := { exBookingA with status := BookingStatus.rejected }

/-- The booking of buyer 1 before the vendor acted. -/
def exBookingPend : Booking := { exBookingA with status := BookingStatus.pending, paymentIntentId := none }

/-- The booking of buyer 1 after a completed capture. -/
def exBookingPaid : Booking :=
  { exBookingA with status := BookingStatus.paid, paymentStatus := PaymentStatus.paid, paidAt := some 0 }

/-- A booking whose payment status is paid while its lifecycle status is
still accepted (no core operation produces it; used to exercise the
already-paid branch of createPaymentIntent, which sits behind the status
check). -/
def exBookingAccPaid : Booking := { exBookingA with paymentStatus := PaymentStatus.paid }

/-- The external provider: intents 9 and 8 exist and have succeeded, with
different amounts; every other id is unknown. -/
def exStripe : Nat → Option StripeIntent := fun r =>
  if r = 9 then some { status := IntentStatus.succeeded, amount := 20000 }
  else if r = 8 then some { status := IntentStatus.succeeded, amount := 55500 }
  else none

/-- Main example store: one ticket with three seats, two accepted
bookings of two seats each, no transactions yet. -/
def exDB : DB :=
  { tickets := [(1, exTicket)], bookings := [(1, exBookingA), (2, exBookingB)]
    transactions := [], nextBookingId := 3 }

/-- Store where the live ticket has one seat left but booking 1 asks for
two. -/
def exDBLow : DB :=
  { tickets := [(1, exTicketLow)], bookings := [(1, exBookingA)]
    transactions := [], nextBookingId := 2 }

/-- Store where the live ticket of booking 1 has been deleted. -/
def exDBNoTicket : DB :=
  { tickets := [], bookings := [(1, exBookingA)], transactions := [], nextBookingId := 2 }

/-- Store holding the rejected booking. -/
def exDBRej : DB :=
  { tickets := [(1, exTicket)], bookings := [(1, exBookingRej)], transactions := [], nextBookingId := 2 }

/-- Store holding the pending booking. -/
def exDBPend : DB :=
  { tickets := [(1, exTicket)], bookings := [(1, exBookingPend)], transactions := [], nextBookingId := 2 }

/-- Store holding the captured booking together with its transaction. -/
def exDBPaid : DB :=
  { tickets := [(1, exTicketLow)], bookings := [(1, exBookingPaid)]
    transactions := [confirmTxn 1 1 9 exBookingA], nextBookingId := 2 }

/-- Store holding the accepted-but-paid booking. -/
def exDBAccPaid : DB :=
  { tickets := [(1, exTicket)], bookings := [(1, exBookingAccPaid)], transactions := [], nextBookingId := 2 }

/-- Store whose only ticket is still unapproved. -/
def exDBUnapproved : DB :=
  { tickets := [(1, exTicketUnapproved)], bookings := [], transactions := [], nextBookingId := 1 }

/-! ## Helper lemmas -/

/-- Updating the record an id resolves to makes the id resolve to the new
value. -/
theorem findById_updateById_self {α : Type} (l : List (Nat × α)) (id : Nat) (b v : α)
    (h : findById l id = some b) : findById (updateById l id v) id = some v := by
  induction l with
  | nil => simp [findById] at h
  | cons p rest ih =>
    obtain ⟨k, w⟩ := p
    by_cases hk : k = id
    · simp [findById, updateById, hk]
    · simp only [findById, updateById, if_neg hk] at h ⊢
      exact ih h

/-- The full capture path of confirmPayment: when every check passes and
both the decrement and the insert go through, the booking is saved as
paid, the ticket quantity drops by the booking quantity, and the
transaction keyed by the supplied intent id is appended. -/
theorem confirmPayment_success_eq
    (now userId bookingId intentRef : Nat) (si : Nat → Option StripeIntent)
    (db : DB) (b : Booking) (t : Ticket) (intent : StripeIntent)
    (hb : findById db.bookings bookingId = some b)
    (hu : b.user = userId)
    (hsi : si intentRef = some intent)
    (hst : intent.status = IntentStatus.succeeded)
    (hnp : b.paymentStatus ≠ PaymentStatus.paid)
    (ht : findById db.tickets b.ticket = some t)
    (hq : b.bookingQuantity ≤ t.quantity)
    (hfresh : hasTransactionId db.transactions intentRef = false) :
    confirmPayment now userId bookingId intentRef si db =
      ({ db with
          bookings := updateById db.bookings bookingId (capturedBooking now b)
          tickets := updateById db.tickets b.ticket { t with quantity := t.quantity - b.bookingQuantity }
          transactions := db.transactions ++ [confirmTxn userId bookingId intentRef b] },
       ConfirmResult.ok (capturedBooking now b) (confirmTxn userId bookingId intentRef b)) := by
  have hq2 : ¬(t.quantity - b.bookingQuantity < 0) := by omega
  simp only [confirmPayment, hb, hu, hsi, ht, hst, hnp, hfresh, hq2, ne_eq,
    not_true_eq_false, not_false_eq_true, if_true, if_false, ite_false, ite_true,
    Bool.false_eq_true]

/-- A booking whose payment status is already paid makes confirmPayment
return the already-processed error with no state change, provided the
supplied intent exists and has succeeded. -/
theorem confirmPayment_alreadyPaid_eq
    (now userId bookingId intentRef : Nat) (si : Nat → Option StripeIntent)
    (db : DB) (b : Booking) (intent : StripeIntent)
    (hb : findById db.bookings bookingId = some b)
    (hu : b.user = userId)
    (hsi : si intentRef = some intent)
    (hst : intent.status = IntentStatus.succeeded)
    (hp : b.paymentStatus = PaymentStatus.paid) :
    confirmPayment now userId bookingId intentRef si db = (db, ConfirmResult.alreadyPaid) := by
  simp only [confirmPayment, hb, hu, hsi, hst, hp, ne_eq, not_true_eq_false,
    not_false_eq_true, if_true, if_false, ite_false, ite_true]

/-- acceptBooking on a booking that is not pending: refused with the
invalid-status error carrying the current status, no state change. -/
theorem acceptBooking_nonpending_eq
    (now vendorId bookingId : Nat) (db : DB) (b : Booking) (t : Ticket)
    (hb : findById db.bookings bookingId = some b)
    (ht : findById db.tickets b.ticket = some t)
    (hv : t.vendor = vendorId)
    (hnp : b.status ≠ BookingStatus.pending) :
    acceptBooking now vendorId bookingId db = (db, AcceptResult.invalidStatus b.status) := by
  simp only [acceptBooking, hb, ht, hv, hnp, ne_eq, not_true_eq_false, not_false_eq_true,
    if_true, if_false, ite_true, ite_false]

/-- acceptBooking on a pending, owned, unexpired booking: transitions it
to accepted. -/
theorem acceptBooking_pending_eq
    (now vendorId bookingId : Nat) (db : DB) (b : Booking) (t : Ticket)
    (hb : findById db.bookings bookingId = some b)
    (ht : findById db.tickets b.ticket = some t)
    (hv : t.vendor = vendorId)
    (hp : b.status = BookingStatus.pending)
    (hnexp : isExpiredAt now b.ticketSnapshot.departureDate b.ticketSnapshot.departureTime = false) :
    acceptBooking now vendorId bookingId db =
      ({ db with bookings := updateById db.bookings bookingId { b with status := BookingStatus.accepted } },
       AcceptResult.accepted { b with status := BookingStatus.accepted }) := by
  simp only [acceptBooking, hb, ht, hv, hp, hnexp, ne_eq, not_true_eq_false, not_false_eq_true,
    if_true, if_false, ite_true, ite_false, Bool.false_eq_true]

/-- rejectBooking on a booking that is not pending: refused with the
invalid-status error, no state change. -/
theorem rejectBooking_nonpending_eq
    (vendorId bookingId : Nat) (db : DB) (b : Booking) (t : Ticket)
    (hb : findById db.bookings bookingId = some b)
    (ht : findById db.tickets b.ticket = some t)
    (hv : t.vendor = vendorId)
    (hnp : b.status ≠ BookingStatus.pending) :
    rejectBooking vendorId bookingId db = (db, RejectResult.invalidStatus b.status) := by
  simp only [rejectBooking, hb, ht, hv, hnp, ne_eq, not_true_eq_false, not_false_eq_true,
    if_true, if_false, ite_true, ite_false]

/-- cancelBooking on a booking that is not pending: refused with the
invalid-status error, no state change. -/
theorem cancelBooking_nonpending_eq
    (userId bookingId : Nat) (db : DB) (b : Booking)
    (hb : findById db.bookings bookingId = some b)
    (hu : b.user = userId)
    (hnp : b.status ≠ BookingStatus.pending) :
    cancelBooking userId bookingId db = (db, CancelResult.invalidStatus) := by
  simp only [cancelBooking, hb, hu, hnp, ne_eq, not_true_eq_false, not_false_eq_true,
    if_true, if_false, ite_true, ite_false]

/-! ## Claim theorems -/

/-- C1: the inventory decrement of confirmPayment is not a conditional
update surfaced as InsufficientInventory.  With a ticket of quantity
three and two accepted bookings of quantity two each, the first confirm
captures normally (quantity drops to one), and the second confirm, whose
booking quantity exceeds the remaining quantity, does not fail with an
insufficient-inventory result: the min-zero validator of the schema
rejects the negative save and the call ends in the generic server error,
after the booking was already saved as paid.  The sum of the quantities
of paid bookings referencing the ticket is then four, exceeding the
quantity three the ticket had before the captures began. -/
theorem confirmPayment_unconditional_decrement_violation :
    (confirmPayment 0 1 1 9 exStripe exDB).2
        = ConfirmResult.ok (capturedBooking 0 exBookingA) (confirmTxn 1 1 9 exBookingA) ∧
    (findById (confirmPayment 0 1 1 9 exStripe exDB).1.tickets 1).map Ticket.quantity
        = some (1 : Int) ∧
    (confirmPayment 0 2 2 8 exStripe (confirmPayment 0 1 1 9 exStripe exDB).1).2
        = ConfirmResult.serverError ∧
    (findById (confirmPayment 0 2 2 8 exStripe (confirmPayment 0 1 1 9 exStripe exDB).1).1.bookings 2).map
        Booking.status = some BookingStatus.paid ∧
    paidQuantitySum (confirmPayment 0 2 2 8 exStripe (confirmPayment 0 1 1 9 exStripe exDB).1).1.bookings 1
        = 4 := by
  decide

/-- C4: the capture sequence of confirmPayment is not all-or-nothing.
When the decrement fails (live quantity one, booking quantity two), the
call returns the generic server error while the booking stays saved with
status paid and payment status paid, the ticket is untouched and no
transaction record exists: exactly one of the three effects is visible. -/
theorem confirmPayment_capture_not_atomic :
    (confirmPayment 0 1 1 9 exStripe exDBLow).2 = ConfirmResult.serverError ∧
    (findById (confirmPayment 0 1 1 9 exStripe exDBLow).1.bookings 1).map Booking.status
        = some BookingStatus.paid ∧
    (findById (confirmPayment 0 1 1 9 exStripe exDBLow).1.bookings 1).map Booking.paymentStatus
        = some PaymentStatus.paid ∧
    (confirmPayment 0 1 1 9 exStripe exDBLow).1.tickets = exDBLow.tickets ∧
    (confirmPayment 0 1 1 9 exStripe exDBLow).1.transactions = [] := by
  decide

/-- C7: booking creation and booking acceptance never touch the ticket
collection, whether they succeed or fail; quantity is only consumed by
the capture path. -/
theorem createBooking_acceptBooking_preserve_tickets
    (now userId ticketId vendorId bookingId : Nat) (q : Int) (db : DB) :
    (createBooking now userId ticketId q db).1.tickets = db.tickets ∧
    (acceptBooking now vendorId bookingId db).1.tickets = db.tickets := by
  constructor
  · unfold createBooking
    repeat' split
    all_goals rfl
  · unfold acceptBooking
    repeat' split
    all_goals rfl

/-- C2: confirmPayment is idempotent.  A first successful capture marks
the booking paid and appends one transaction; a second call with the
same booking id and a succeeded external status changes nothing and
returns the already-processed error, so exactly one transaction exists
for the booking across both calls. -/
theorem confirmPayment_idempotent
    (now now2 userId bookingId intentRef : Nat) (si : Nat → Option StripeIntent)
    (db : DB) (b : Booking) (t : Ticket) (intent : StripeIntent)
    (hb : findById db.bookings bookingId = some b)
    (hu : b.user = userId)
    (hsi : si intentRef = some intent)
    (hst : intent.status = IntentStatus.succeeded)
    (hnp : b.paymentStatus ≠ PaymentStatus.paid)
    (ht : findById db.tickets b.ticket = some t)
    (hq : b.bookingQuantity ≤ t.quantity)
    (hfresh : hasTransactionId db.transactions intentRef = false)
    (hnone : countTxnsFor db.transactions bookingId = 0) :
    (confirmPayment now userId bookingId intentRef si db).2
        = ConfirmResult.ok (capturedBooking now b) (confirmTxn userId bookingId intentRef b) ∧
    confirmPayment now2 userId bookingId intentRef si (confirmPayment now userId bookingId intentRef si db).1
        = ((confirmPayment now userId bookingId intentRef si db).1, ConfirmResult.alreadyPaid) ∧
    countTxnsFor (confirmPayment now userId bookingId intentRef si db).1.transactions bookingId = 1 := by
  have h1 := confirmPayment_success_eq now userId bookingId intentRef si db b t intent
    hb hu hsi hst hnp ht hq hfresh
  refine ⟨by rw [h1], ?_, ?_⟩
  · rw [h1]
    exact confirmPayment_alreadyPaid_eq now2 userId bookingId intentRef si _
      (capturedBooking now b) intent (findById_updateById_self _ _ _ _ hb) hu hsi hst rfl
  · rw [h1]
    show countTxnsFor (db.transactions ++ [confirmTxn userId bookingId intentRef b]) bookingId = 1
    simp only [countTxnsFor, List.filter_append, List.length_append] at hnone ⊢
    rw [hnone]
    simp [confirmTxn]

/-- C2 witness: the two-call scenario at the concrete example store. -/
theorem confirmPayment_idempotent_witness :
    (confirmPayment 0 1 1 9 exStripe exDB).2
        = ConfirmResult.ok (capturedBooking 0 exBookingA) (confirmTxn 1 1 9 exBookingA) ∧
    confirmPayment 5 1 1 9 exStripe (confirmPayment 0 1 1 9 exStripe exDB).1
        = ((confirmPayment 0 1 1 9 exStripe exDB).1, ConfirmResult.alreadyPaid) ∧
    countTxnsFor (confirmPayment 0 1 1 9 exStripe exDB).1.transactions 1 = 1 :=
  confirmPayment_idempotent 0 5 1 1 9 exStripe exDB exBookingA exTicket
    { status := IntentStatus.succeeded, amount := 20000 }
    (by decide) rfl (by decide) rfl (by decide) (by decide) (by decide) (by decide) (by decide)

/-- C3 counterexample: a rejected booking with unpaid payment status is
not refused by confirmPayment: the capture goes through and moves the
booking to status paid, contradicting both the claim that rejected
bookings refuse every transition with InvalidTransition and the claim
that confirm never moves a booking that is not accepted into paid. -/
theorem confirmPayment_captures_rejected_booking :
    (confirmPayment 0 1 1 9 exStripe exDBRej).2
        = ConfirmResult.ok (capturedBooking 0 exBookingRej) (confirmTxn 1 1 9 exBookingRej) ∧
    (findById (confirmPayment 0 1 1 9 exStripe exDBRej).1.bookings 1).map Booking.status
        = some BookingStatus.paid := by
  decide

/-- C3 (amended): for a booking in status rejected or paid, the booking
engine operations accept, reject and cancel all fail with the
invalid-transition error and leave the store unchanged; confirmPayment,
however, is guarded only by the payment status: when the payment status
is paid it fails with the already-paid error (not InvalidTransition) and
leaves the store unchanged, while a rejected booking with unpaid payment
status is captured (see the counterexample). -/
theorem terminal_bookings_refuse_transitions
    (now vendorId userId bookingId : Nat) (db : DB) (b : Booking) (t : Ticket)
    (hb : findById db.bookings bookingId = some b)
    (hterm : b.status = BookingStatus.rejected ∨ b.status = BookingStatus.paid)
    (ht : findById db.tickets b.ticket = some t)
    (hv : t.vendor = vendorId)
    (hu : b.user = userId) :
    acceptBooking now vendorId bookingId db = (db, AcceptResult.invalidStatus b.status) ∧
    rejectBooking vendorId bookingId db = (db, RejectResult.invalidStatus b.status) ∧
    cancelBooking userId bookingId db = (db, CancelResult.invalidStatus) ∧
    (∀ intentRef si intent, si intentRef = some intent →
      intent.status = IntentStatus.succeeded → b.paymentStatus = PaymentStatus.paid →
      confirmPayment now userId bookingId intentRef si db = (db, ConfirmResult.alreadyPaid)) := by
  have hnp : b.status ≠ BookingStatus.pending := by
    rcases hterm with h | h <;> simp [h]
  refine ⟨acceptBooking_nonpending_eq now vendorId bookingId db b t hb ht hv hnp,
    rejectBooking_nonpending_eq vendorId bookingId db b t hb ht hv hnp,
    cancelBooking_nonpending_eq userId bookingId db b hb hu hnp, ?_⟩
  intro intentRef si intent hsi hsucc hp
  exact confirmPayment_alreadyPaid_eq now userId bookingId intentRef si db b intent hb hu hsi hsucc hp

/-- C3 witness: the rejected and the paid example bookings. -/
theorem terminal_bookings_refuse_transitions_witness :
    acceptBooking 0 7 1 exDBRej = (exDBRej, AcceptResult.invalidStatus BookingStatus.rejected) ∧
    rejectBooking 7 1 exDBRej = (exDBRej, RejectResult.invalidStatus BookingStatus.rejected) ∧
    cancelBooking 1 1 exDBRej = (exDBRej, CancelResult.invalidStatus) ∧
    confirmPayment 0 1 1 9 exStripe exDBPaid = (exDBPaid, ConfirmResult.alreadyPaid) := by
  have h1 := terminal_bookings_refuse_transitions 0 7 1 1 exDBRej exBookingRej exTicket
    (by decide) (Or.inl rfl) (by decide) rfl rfl
  have h2 := terminal_bookings_refuse_transitions 0 7 1 1 exDBPaid exBookingPaid exTicketLow
    (by decide) (Or.inr rfl) (by decide) rfl rfl
  exact ⟨h1.1, h1.2.1, h1.2.2.1,
    h2.2.2.2 9 exStripe { status := IntentStatus.succeeded, amount := 20000 } (by decide) rfl rfl⟩

/-- C8: accept on a booking that is not pending returns the
invalid-status error and changes nothing, and in particular accept
immediately followed by accept fails on the second call with the
invalid-status error carrying the status accepted. -/
theorem acceptBooking_repeat_invalid
    (now vendorId bookingId : Nat) (db : DB) (b : Booking) (t : Ticket)
    (hb : findById db.bookings bookingId = some b)
    (ht : findById db.tickets b.ticket = some t)
    (hv : t.vendor = vendorId) :
    (b.status ≠ BookingStatus.pending →
      acceptBooking now vendorId bookingId db = (db, AcceptResult.invalidStatus b.status)) ∧
    (b.status = BookingStatus.pending →
      isExpiredAt now b.ticketSnapshot.departureDate b.ticketSnapshot.departureTime = false →
      (acceptBooking now vendorId bookingId db).2
          = AcceptResult.accepted { b with status := BookingStatus.accepted } ∧
      acceptBooking now vendorId bookingId (acceptBooking now vendorId bookingId db).1
          = ((acceptBooking now vendorId bookingId db).1,
             AcceptResult.invalidStatus BookingStatus.accepted)) := by
  constructor
  · intro hnp
    exact acceptBooking_nonpending_eq now vendorId bookingId db b t hb ht hv hnp
  · intro hp hnexp
    have h1 := acceptBooking_pending_eq now vendorId bookingId db b t hb ht hv hp hnexp
    refine ⟨by rw [h1], ?_⟩
    rw [h1]
    exact acceptBooking_nonpending_eq now vendorId bookingId _
      { b with status := BookingStatus.accepted } t
      (findById_updateById_self _ _ _ _ hb) ht hv (fun h => nomatch h)

/-- C8 witness: accept of the already-accepted example booking fails,
and accept twice on the pending example booking fails on the second
call. -/
theorem acceptBooking_repeat_invalid_witness :
    acceptBooking 0 7 1 exDB = (exDB, AcceptResult.invalidStatus BookingStatus.accepted) ∧
    (acceptBooking 0 7 1 exDBPend).2
        = AcceptResult.accepted { exBookingPend with status := BookingStatus.accepted } ∧
    acceptBooking 0 7 1 (acceptBooking 0 7 1 exDBPend).1
        = ((acceptBooking 0 7 1 exDBPend).1, AcceptResult.invalidStatus BookingStatus.accepted) := by
  have h1 := acceptBooking_repeat_invalid 0 7 1 exDB exBookingA exTicket (by decide) (by decide) rfl
  have h2 := acceptBooking_repeat_invalid 0 7 1 exDBPend exBookingPend exTicket (by decide) (by decide) rfl
  exact ⟨h1.1 (by decide), (h2.2 rfl (by decide)).1, (h2.2 rfl (by decide)).2⟩

/-- C9: confirmPayment never compares the supplied intent reference with
the one createPaymentIntent stored on the booking, nor the amount of the
retrieved intent with the total price of the booking: with a reference
different from the stored one and an amount different from the total,
the capture still succeeds, and the created transaction is keyed by the
supplied intent id. -/
theorem confirmPayment_no_intent_binding
    (now userId bookingId intentRef : Nat) (si : Nat → Option StripeIntent)
    (db : DB) (b : Booking) (t : Ticket) (intent : StripeIntent)
    (hb : findById db.bookings bookingId = some b)
    (hu : b.user = userId)
    (hsi : si intentRef = some intent)
    (hst : intent.status = IntentStatus.succeeded)
    (hnp : b.paymentStatus ≠ PaymentStatus.paid)
    (_hrefMismatch : b.paymentIntentId ≠ some intentRef)
    (_hamtMismatch : intent.amount ≠ b.totalPrice)
    (ht : findById db.tickets b.ticket = some t)
    (hq : b.bookingQuantity ≤ t.quantity)
    (hfresh : hasTransactionId db.transactions intentRef = false) :
    (confirmPayment now userId bookingId intentRef si db).2
        = ConfirmResult.ok (capturedBooking now b) (confirmTxn userId bookingId intentRef b) ∧
    (confirmPayment now userId bookingId intentRef si db).1.transactions
        = db.transactions ++ [confirmTxn userId bookingId intentRef b] ∧
    (confirmTxn userId bookingId intentRef b).transactionId = intentRef := by
  have h1 := confirmPayment_success_eq now userId bookingId intentRef si db b t intent
    hb hu hsi hst hnp ht hq hfresh
  rw [h1]
  exact ⟨rfl, rfl, rfl⟩

/-- C9 witness: booking 1 stores intent 9, yet confirming it with intent
8 (created for booking 2, with a different amount) succeeds and keys the
transaction by 8. -/
theorem confirmPayment_no_intent_binding_witness :
    (confirmPayment 0 1 1 8 exStripe exDB).2
        = ConfirmResult.ok (capturedBooking 0 exBookingA) (confirmTxn 1 1 8 exBookingA) ∧
    (confirmPayment 0 1 1 8 exStripe exDB).1.transactions
        = exDB.transactions ++ [confirmTxn 1 1 8 exBookingA] ∧
    (confirmTxn 1 1 8 exBookingA).transactionId = 8 :=
  confirmPayment_no_intent_binding 0 1 1 8 exStripe exDB exBookingA exTicket
    { status := IntentStatus.succeeded, amount := 55500 }
    (by decide) rfl (by decide) rfl (by decide) (by decide) (by decide) (by decide) (by decide) (by decide)

/-- C10 counterexample: with the live ticket deleted, confirmPayment
does not succeed as the claim states: it returns the generic server
error and creates no transaction, although the booking has already been
saved with payment status paid. -/
theorem confirmPayment_missing_ticket_not_success :
    (confirmPayment 0 1 1 9 exStripe exDBNoTicket).2 = ConfirmResult.serverError ∧
    (confirmPayment 0 1 1 9 exStripe exDBNoTicket).1.transactions = [] ∧
    (findById (confirmPayment 0 1 1 9 exStripe exDBNoTicket).1.bookings 1).map Booking.paymentStatus
        = some PaymentStatus.paid := by
  decide

/-- C10 (amended): when the live ticket referenced by the booking no
longer exists, confirmPayment saves the booking as paid and then fails
reading the id of the populated null ticket: the call returns the
generic server error, the inventory decrement never happens, and no
transaction record is created — the booking update is the only visible
effect. -/
theorem confirmPayment_missing_ticket_error
    (now userId bookingId intentRef : Nat) (si : Nat → Option StripeIntent)
    (db : DB) (b : Booking) (intent : StripeIntent)
    (hb : findById db.bookings bookingId = some b)
    (hu : b.user = userId)
    (hsi : si intentRef = some intent)
    (hst : intent.status = IntentStatus.succeeded)
    (hnp : b.paymentStatus ≠ PaymentStatus.paid)
    (ht : findById db.tickets b.ticket = none) :
    confirmPayment now userId bookingId intentRef si db =
      ({ db with bookings := updateById db.bookings bookingId (capturedBooking now b) },
       ConfirmResult.serverError) := by
  simp only [confirmPayment, hb, hu, hsi, hst, hnp, ht, ne_eq, not_true_eq_false,
    not_false_eq_true, if_true, if_false, ite_true, ite_false]

/-- C10 witness: the missing-ticket scenario at the concrete store. -/
theorem confirmPayment_missing_ticket_error_witness :
    confirmPayment 0 1 1 9 exStripe exDBNoTicket =
      ({ exDBNoTicket with bookings := updateById exDBNoTicket.bookings 1 (capturedBooking 0 exBookingA) },
       ConfirmResult.serverError) :=
  confirmPayment_missing_ticket_error 0 1 1 9 exStripe exDBNoTicket exBookingA
    { status := IntentStatus.succeeded, amount := 20000 }
    (by decide) rfl (by decide) rfl (by decide) (by decide)

/-- C5: the check cascade of createPaymentIntent.  In order: ownership
(Forbidden), status accepted (InvalidTransition, rejecting pending,
rejected and paid alike), payment status not paid (AlreadyPaid), snapshot
departure not passed (Expired), live ticket present with enough quantity
(InsufficientInventory, shared with the deleted-ticket case); when all
checks pass the returned intent reference is persisted on the booking and
its status is unchanged. -/
theorem createPaymentIntent_checks
    (now userId bookingId newIntentId : Nat) (db : DB) (b : Booking)
    (hb : findById db.bookings bookingId = some b) :
    (b.user ≠ userId →
      createPaymentIntent now userId bookingId newIntentId db = (db, IntentResult.notAuthorized)) ∧
    (b.user = userId → b.status ≠ BookingStatus.accepted →
      createPaymentIntent now userId bookingId newIntentId db = (db, IntentResult.invalidStatus b.status)) ∧
    (b.user = userId → b.status = BookingStatus.accepted →
      b.paymentStatus = PaymentStatus.paid →
      createPaymentIntent now userId bookingId newIntentId db = (db, IntentResult.alreadyPaid)) ∧
    (b.user = userId → b.status = BookingStatus.accepted →
      b.paymentStatus ≠ PaymentStatus.paid →
      isExpiredAt now b.ticketSnapshot.departureDate b.ticketSnapshot.departureTime = true →
      createPaymentIntent now userId bookingId newIntentId db = (db, IntentResult.expired)) ∧
    (b.user = userId → b.status = BookingStatus.accepted →
      b.paymentStatus ≠ PaymentStatus.paid →
      isExpiredAt now b.ticketSnapshot.departureDate b.ticketSnapshot.departureTime = false →
      (findById db.tickets b.ticket = none ∨
        ∃ t, findById db.tickets b.ticket = some t ∧ t.quantity < b.bookingQuantity) →
      createPaymentIntent now userId bookingId newIntentId db = (db, IntentResult.unavailable)) ∧
    (∀ t, b.user = userId → b.status = BookingStatus.accepted →
      b.paymentStatus ≠ PaymentStatus.paid →
      isExpiredAt now b.ticketSnapshot.departureDate b.ticketSnapshot.departureTime = false →
      findById db.tickets b.ticket = some t → b.bookingQuantity ≤ t.quantity →
      createPaymentIntent now userId bookingId newIntentId db =
        ({ db with bookings := updateById db.bookings bookingId { b with paymentIntentId := some newIntentId } },
         IntentResult.ok newIntentId b.totalPrice) ∧
      ({ b with paymentIntentId := some newIntentId }).status = b.status) := by
  refine ⟨?_, ?_, ?_, ?_, ?_, ?_⟩
  · intro h
    simp [createPaymentIntent, hb, h]
  · intro hu hs
    simp [createPaymentIntent, hb, hu, hs]
  · intro hu hs hp
    simp [createPaymentIntent, hb, hu, hs, hp]
  · intro hu hs hp hexp
    simp [createPaymentIntent, hb, hu, hs, hp, hexp]
  · intro hu hs hp hexp hdisj
    rcases hdisj with hnone | ⟨t, ht, hlt⟩
    · simp [createPaymentIntent, hb, hu, hs, hp, hexp, hnone]
    · simp [createPaymentIntent, hb, hu, hs, hp, hexp, ht, hlt]
  · intro t hu hs hp hexp ht hq
    have hq2 : ¬(t.quantity < b.bookingQuantity) := by omega
    refine ⟨?_, rfl⟩
    simp [createPaymentIntent, hb, hu, hs, hp, hexp, ht, hq2]

/-- C5 witness: each branch of the cascade at a concrete store: foreign
caller, rejected status, paid payment status behind an accepted status,
expired snapshot, deleted ticket, short inventory, and the successful
persist of the intent reference. -/
theorem createPaymentIntent_checks_witness :
    createPaymentIntent 0 99 1 5 exDB = (exDB, IntentResult.notAuthorized) ∧
    createPaymentIntent 0 1 1 5 exDBRej = (exDBRej, IntentResult.invalidStatus BookingStatus.rejected) ∧
    createPaymentIntent 0 1 1 5 exDBAccPaid = (exDBAccPaid, IntentResult.alreadyPaid) ∧
    createPaymentIntent 200000000 1 1 5 exDB = (exDB, IntentResult.expired) ∧
    createPaymentIntent 0 1 1 5 exDBNoTicket = (exDBNoTicket, IntentResult.unavailable) ∧
    createPaymentIntent 0 1 1 5 exDBLow = (exDBLow, IntentResult.unavailable) ∧
    createPaymentIntent 0 1 1 5 exDB =
      ({ exDB with bookings := updateById exDB.bookings 1 { exBookingA with paymentIntentId := some 5 } },
       IntentResult.ok 5 200) := by
  have hA := createPaymentIntent_checks 0 99 1 5 exDB exBookingA (by decide)
  have hRej := createPaymentIntent_checks 0 1 1 5 exDBRej exBookingRej (by decide)
  have hAP := createPaymentIntent_checks 0 1 1 5 exDBAccPaid exBookingAccPaid (by decide)
  have hExp := createPaymentIntent_checks 200000000 1 1 5 exDB exBookingA (by decide)
  have hNoT := createPaymentIntent_checks 0 1 1 5 exDBNoTicket exBookingA (by decide)
  have hLow := createPaymentIntent_checks 0 1 1 5 exDBLow exBookingA (by decide)
  have hOk := createPaymentIntent_checks 0 1 1 5 exDB exBookingA (by decide)
  exact ⟨hA.1 (by decide),
    hRej.2.1 rfl (by decide),
    hAP.2.2.1 rfl rfl rfl,
    hExp.2.2.2.1 rfl rfl (by decide) (by decide),
    hNoT.2.2.2.2.1 rfl rfl (by decide) (by decide) (Or.inl (by decide)),
    hLow.2.2.2.2.1 rfl rfl (by decide) (by decide) (Or.inr ⟨exTicketLow, by decide, by decide⟩),
    (hOk.2.2.2.2.2 exTicket rfl rfl (by decide) (by decide) (by decide) (by decide)).1⟩

/-- C6: the check cascade of createBooking.  A non-positive quantity is
refused (the zero case through the required-field test), an absent
ticket gives NotFound, an unapproved ticket NotApproved, a passed
departure instant Expired, a quantity above the available one
InsufficientInventory, and every failure leaves the store unchanged; on
success the appended booking has total price quantity times unit price,
the frozen snapshot of the ticket, status pending and payment status
unpaid. -/
theorem createBooking_checks
    (now userId ticketId : Nat) (q : Int) (db : DB) :
    (q ≤ 0 →
      (createBooking now userId ticketId q db).1 = db ∧
      ((createBooking now userId ticketId q db).2 = CreateBookingResult.missingFields ∨
       (createBooking now userId ticketId q db).2 = CreateBookingResult.invalidQuantity)) ∧
    (0 < q → findById db.tickets ticketId = none →
      createBooking now userId ticketId q db = (db, CreateBookingResult.ticketNotFound)) ∧
    (∀ t, 0 < q → findById db.tickets ticketId = some t →
      t.verificationStatus ≠ VerificationStatus.approved →
      createBooking now userId ticketId q db = (db, CreateBookingResult.notApproved)) ∧
    (∀ t, 0 < q → findById db.tickets ticketId = some t →
      t.verificationStatus = VerificationStatus.approved →
      isExpiredAt now t.departureDate t.departureTime = true →
      createBooking now userId ticketId q db = (db, CreateBookingResult.expired)) ∧
    (∀ t, 0 < q → findById db.tickets ticketId = some t →
      t.verificationStatus = VerificationStatus.approved →
      isExpiredAt now t.departureDate t.departureTime = false →
      t.quantity < q →
      createBooking now userId ticketId q db = (db, CreateBookingResult.insufficientQuantity)) ∧
    (∀ t, 0 < q → findById db.tickets ticketId = some t →
      t.verificationStatus = VerificationStatus.approved →
      isExpiredAt now t.departureDate t.departureTime = false →
      q ≤ t.quantity →
      createBooking now userId ticketId q db =
        ({ db with
            bookings := db.bookings ++ [(db.nextBookingId, newBookingOf userId ticketId q t)]
            nextBookingId := db.nextBookingId + 1 },
         CreateBookingResult.created db.nextBookingId (newBookingOf userId ticketId q t)) ∧
      (newBookingOf userId ticketId q t).totalPrice = t.price * q ∧
      (newBookingOf userId ticketId q t).status = BookingStatus.pending ∧
      (newBookingOf userId ticketId q t).paymentStatus = PaymentStatus.unpaid ∧
      (newBookingOf userId ticketId q t).ticketSnapshot.unitPrice = t.price ∧
      (newBookingOf userId ticketId q t).ticketSnapshot.departureDate = t.departureDate) := by
  refine ⟨?_, ?_, ?_, ?_, ?_, ?_⟩
  · intro hq
    by_cases hq0 : q = 0
    · simp [createBooking, hq0]
    · simp [createBooking, hq0, hq]
  · intro hq hnone
    have hq0 : ¬(q = 0) := by omega
    have hqle : ¬(q ≤ 0) := by omega
    simp [createBooking, hq0, hqle, hnone]
  · intro t hq ht hv
    have hq0 : ¬(q = 0) := by omega
    have hqle : ¬(q ≤ 0) := by omega
    simp [createBooking, hq0, hqle, ht, hv]
  · intro t hq ht hv hexp
    have hq0 : ¬(q = 0) := by omega
    have hqle : ¬(q ≤ 0) := by omega
    simp [createBooking, hq0, hqle, ht, hv, hexp]
  · intro t hq ht hv hexp hlt
    have hq0 : ¬(q = 0) := by omega
    have hqle : ¬(q ≤ 0) := by omega
    simp [createBooking, hq0, hqle, ht, hv, hexp, hlt]
  · intro t hq ht hv hexp hge
    have hq0 : ¬(q = 0) := by omega
    have hqle : ¬(q ≤ 0) := by omega
    have hlt : ¬(t.quantity < q) := by omega
    exact ⟨by simp [createBooking, hq0, hqle, ht, hv, hexp, hlt], rfl, rfl, rfl, rfl, rfl⟩

/-- C6 witness: each branch of the cascade at a concrete store: zero and
negative quantities, an unknown ticket id, an unapproved ticket, a
departed ticket, a request above the available quantity, and the
successful creation of booking three with total price two hundred. -/
theorem createBooking_checks_witness :
    ((createBooking 0 1 1 0 exDB).1 = exDB ∧
      ((createBooking 0 1 1 0 exDB).2 = CreateBookingResult.missingFields ∨
       (createBooking 0 1 1 0 exDB).2 = CreateBookingResult.invalidQuantity)) ∧
    ((createBooking 0 1 1 (-3) exDB).1 = exDB ∧
      ((createBooking 0 1 1 (-3) exDB).2 = CreateBookingResult.missingFields ∨
       (createBooking 0 1 1 (-3) exDB).2 = CreateBookingResult.invalidQuantity)) ∧
    createBooking 0 1 42 2 exDB = (exDB, CreateBookingResult.ticketNotFound) ∧
    createBooking 0 1 1 2 exDBUnapproved = (exDBUnapproved, CreateBookingResult.notApproved) ∧
    createBooking 200000000 1 1 2 exDB = (exDB, CreateBookingResult.expired) ∧
    createBooking 0 1 1 5 exDB = (exDB, CreateBookingResult.insufficientQuantity) ∧
    createBooking 0 1 1 2 exDB =
      ({ exDB with
          bookings := exDB.bookings ++ [(3, newBookingOf 1 1 2 exTicket)]
          nextBookingId := 4 },
       CreateBookingResult.created 3 (newBookingOf 1 1 2 exTicket)) := by
  have h0 := createBooking_checks 0 1 1 0 exDB
  have hm := createBooking_checks 0 1 1 (-3) exDB
  have hnf := createBooking_checks 0 1 42 2 exDB
  have hna := createBooking_checks 0 1 1 2 exDBUnapproved
  have hex := createBooking_checks 200000000 1 1 2 exDB
  have hins := createBooking_checks 0 1 1 5 exDB
  have hok := createBooking_checks 0 1 1 2 exDB
  exact ⟨h0.1 (by decide), hm.1 (by decide),
    hnf.2.1 (by decide) (by decide),
    hna.2.2.1 exTicketUnapproved (by decide) (by decide) (by decide),
    hex.2.2.2.1 exTicket (by decide) (by decide) (by decide) (by decide),
    hins.2.2.2.2.1 exTicket (by decide) (by decide) (by decide) (by decide) (by decide),
    (hok.2.2.2.2.2 exTicket (by decide) (by decide) (by decide) (by decide) (by decide)).1⟩

end TicketBari
